import Mathlib

/-!
Shallow embedding of `custom_components/weback_vacuum/vacdevice.py`
(class `VacDevice`): the status-accessor layer, the command encoders and
the map-rendering orchestration, together with theorems settling the
frozen claims about them.

A Python status mapping is modelled as an association list from string
keys to dynamic values; each command method is modelled as a function
returning the list of payloads it hands to the transport collaborator
(`send_command`), so that "no payload is sent" is "the list is empty".
Constants inherited from the `WebackWssCtrl` base class live in
`webackapi.py`, which is not part of the sources under review; those are
modelled from the spec and marked as such in their doc comments.
-/

namespace Weback

/-- A dynamic value as found in the raw status mapping: the cloud reports
strings, integers appear after parsing, and booleans may appear if the
vendor changes encoding. -/
inductive Val where
  | str : String → Val
  | int : Int → Val
  | bool : Bool → Val
deriving DecidableEq, Repr

/-- The raw status mapping (`self.robot_status`): an unordered string-keyed
mapping, modelled as an association list with first-match lookup. -/
abbrev Status := List (String × Val)

/-- Python `key in mapping` / `mapping.get(key)`: first binding of the key. -/
def Status.get : Status → String → Option Val
  | [], _ => none
  | (k, v) :: rest, key => if k = key then some v else Status.get rest key

/-- Errors a Python accessor can raise: subscripting a missing key
(`KeyError`) and failing to parse a value (`ValueError` from `int(...)`). -/
inductive VacErr where
  | keyError : String → VacErr
  | valueError : String → VacErr
deriving DecidableEq, Repr

/-! ### Constants inherited from `WebackWssCtrl`

`webackapi.py` is not under the sources reviewed here; only the names of
these constants appear in `vacdevice.py`. Their values are modelled from
the spec as distinct tokens — every theorem below depends only on the
structure of the code around them, never on the concrete spellings. -/

/-- Modelled from the spec: the default mode string `IDLE` used when
`working_status` is absent (`IDLE_MODE` in `webackapi.py`, not in src). -/
def IDLE_MODE : Val := Val.str "IDLE"

/-- Modelled from the spec: the enumerated set of mode strings counted as
cleaning (`CLEANING_STATES` in `webackapi.py`, not in src). -/
def CLEANING_STATES : List Val :=
  [Val.str "AUTO_CLEANING", Val.str "SPOT_CLEANING",
   Val.str "ROOM_CLEANING", Val.str "PLAN_CLEANING"]

/-- Modelled from the spec: the enumerated set of mode strings counted as
charging (`CHARGING_STATES` in `webackapi.py`, not in src). -/
def CHARGING_STATES : List Val :=
  [Val.str "CHARGING", Val.str "DIRECT_CHARGING", Val.str "CHARGE_DONE"]

/-- Modelled from the spec: the disabled sentinel for `fan_status`
(`FAN_DISABLED` in `webackapi.py`, not in src). -/
def FAN_DISABLED : Val := Val.str "FAN_DISABLED"

/-- Modelled from the spec: the disabled sentinel for `water_level`
(`MOP_DISABLED` in `webackapi.py`, not in src). -/
def MOP_DISABLED : Val := Val.str "MOP_DISABLED"

/-- Modelled from the spec: the `vacuum_or_mop` result for mop mode
(`MOP_ON` in `webackapi.py`, not in src; the accessor is typed `int`). -/
def MOP_ON : Int := 2

/-- Modelled from the spec: the `vacuum_or_mop` result for vacuum mode
(`VACUUM_ON` in `webackapi.py`, not in src). -/
def VACUUM_ON : Int := 1

/-- Modelled from the spec: the `vacuum_or_mop` result when no fan/mop
information is present (`NO_FAN_NO_MOP` in `webackapi.py`, not in src). -/
def NO_FAN_NO_MOP : Int := 0

/-- Modelled from the spec: the allowed fan-speed set (`FAN_SPEEDS` in
`webackapi.py`, not in src; the source's `fan_speed_list` property lists
quiet, normal and high members). -/
def FAN_SPEEDS : List Val :=
  [Val.str "FAN_QUIET", Val.str "FAN_NORMAL", Val.str "FAN_HIGH"]

/-- Modelled from the spec: the allowed mop-speed set (`MOP_SPEEDS` in
`webackapi.py`, not in src; the source's `mop_level_list` property lists
low, normal and high members). -/
def MOP_SPEEDS : List Val :=
  [Val.str "MOP_LOW", Val.str "MOP_NORMAL", Val.str "MOP_HIGH"]

/-- Modelled from the spec: the payload key the spec writes `status`
(`ASK_STATUS` in `webackapi.py`, not in src). -/
def ASK_STATUS : String := "status"

/-- Modelled from the spec: the payload value the spec writes
`RETURN_CHARGE` (`CHARGE_MODE_RETURNING` in `webackapi.py`, not in src). -/
def CHARGE_MODE_RETURNING : Val := Val.str "RETURN_CHARGE"

/-- Modelled from the spec: the payload value the spec writes
`CLEAN_ROOMS` (`CLEAN_MODE_ROOMS` in `webackapi.py`, not in src). -/
def CLEAN_MODE_ROOMS : Val := Val.str "CLEAN_ROOMS"

/-- Modelled from the spec: the payload value the spec writes `PLAN_RECT`
(`ROBOT_PLANNING_RECT` in `webackapi.py`, not in src). -/
def ROBOT_PLANNING_RECT : Val := Val.str "PLAN_RECT"

/-- Modelled from the spec: the payload key the spec writes
`selected_zone` (`SELECTED_ZONE` in `webackapi.py`, not in src). -/
def SELECTED_ZONE : String := "selected_zone"

/-- Modelled from the spec: the payload key the spec writes
`set_fan_speed` (`SET_FAN_SPEED` in `webackapi.py`, not in src). -/
def SET_FAN_SPEED : String := "set_fan_speed"

/-- Modelled from the spec: the payload key the spec writes `point_num`
(`PLANNING_RECT_POINT_NUM` in `webackapi.py`, not in src). -/
def PLANNING_RECT_POINT_NUM : String := "point_num"

/-- Modelled from the spec: the payload key for the flattened X array
(`PLANNING_RECT_X` in `webackapi.py`, not in src). -/
def PLANNING_RECT_X : String := "x"

/-- Modelled from the spec: the payload key for the flattened Y array
(`PLANNING_RECT_Y` in `webackapi.py`, not in src). -/
def PLANNING_RECT_Y : String := "y"

/-! ### Python `int(...)` parsing

`battery_level` calls `int(...)` on the raw value. A string parses when,
after stripping surrounding whitespace and an optional sign, what is left
is a nonempty digit run in which single underscores may separate digits;
anything else raises `ValueError`. -/

/-- A nonempty run of decimal digits in which a single underscore may
stand between two digits (Python's integer-literal grouping rule). -/
def pyIntDigits : List Char → Bool
  | [] => false
  | [c] => c.isDigit
  | c :: '_' :: cs => c.isDigit && pyIntDigits cs
  | c :: c2 :: cs => c.isDigit && pyIntDigits (c2 :: cs)

/-- Numeric value of a digit run, ignoring grouping underscores. -/
def digitsToNat (cs : List Char) : Nat :=
  cs.foldl (fun acc c => if c = '_' then acc else acc * 10 + (c.toNat - 48)) 0

/-- Python `int(s)` on a string: strip whitespace, take an optional sign,
then require a digit run; `none` models `ValueError`. -/
def pyIntOfString (s : String) : Option Int :=
  let core := ((s.toList.dropWhile Char.isWhitespace).reverse.dropWhile
    Char.isWhitespace).reverse
  match core with
  | '+' :: rest => if pyIntDigits rest then some (digitsToNat rest) else none
  | '-' :: rest => if pyIntDigits rest then some (-(digitsToNat rest : Int)) else none
  | rest => if pyIntDigits rest then some (digitsToNat rest) else none

/-- Python `int(v)` on a dynamic value: integers pass through, booleans
coerce to 0/1, strings are parsed, and an unparseable string raises
`ValueError`. -/
def pyInt : Val → Except VacErr Int
  | Val.int n => Except.ok n
  | Val.bool b => Except.ok (if b then 1 else 0)
  | Val.str s =>
    match pyIntOfString s with
    | some n => Except.ok n
    | none => Except.error (VacErr.valueError s)

/-! ### StatusModel accessors (`vacdevice.py`) -/

/-- `current_mode`: the raw `working_status` field, or `IDLE_MODE` when the
key is absent. -/
def current_mode (st : Status) : Val :=
  match st.get "working_status" with
  | some v => v
  | none => IDLE_MODE

/-- `is_cleaning`: true iff the current mode is in `CLEANING_STATES`. -/
def is_cleaning (st : Status) : Bool :=
  decide (current_mode st ∈ CLEANING_STATES)

/-- `is_available`: `connected = self.robot_status.get("connected")`, then
`connected == "true" if connected is not None else False`. -/
def is_available (st : Status) : Bool :=
  match st.get "connected" with
  | some connected => decide (connected = Val.str "true")
  | none => false

/-- `is_charging`: true iff the current mode is in `CHARGING_STATES`. -/
def is_charging (st : Status) : Bool :=
  decide (current_mode st ∈ CHARGING_STATES)

/-- `battery_level`: `int(self.robot_status["battery_level"])` when the key
is present, else `0`; the `int(...)` call can raise `ValueError`. -/
def battery_level (st : Status) : Except VacErr Int :=
  match st.get "battery_level" with
  | some v => pyInt v
  | none => Except.ok 0

/-- `vacuum_or_mop`, exactly as written in the source. The guard reads
`if "fan_status" and "water_level" in self.robot_status:`, in which the
literal `"fan_status"` is a truthy constant, so only membership of
`"water_level"` is tested; inside the branch `self.robot_status["fan_status"]`
is subscripted directly and raises `KeyError` when that key is absent. -/
def vacuum_or_mop (st : Status) : Except VacErr Int :=
  if (st.get "water_level").isSome then
    match st.get "fan_status" with
    | none => Except.error (VacErr.keyError "fan_status")
    | some f =>
      if f = FAN_DISABLED then
        match st.get "water_level" with
        | none => Except.error (VacErr.keyError "water_level")
        | some w =>
          if w ≠ MOP_DISABLED then Except.ok MOP_ON else Except.ok VACUUM_ON
      else Except.ok VACUUM_ON
  else Except.ok NO_FAN_NO_MOP

/-! ### Command payloads

A payload is the mapping handed to `send_command`. A command method is
modelled as the list of payloads it sends during one call, in order, so
that precondition-rejected calls are the empty list. -/

/-- A payload value: a plain dynamic value, a flat integer array (the
planning-rect X/Y arrays), or a list of one-key dictionaries (the
`selected_zone` room list, each entry `{"room_id": id}`). -/
inductive PVal where
  | prim : Val → PVal
  | intList : List Int → PVal
  | dicts : List (List (String × Val)) → PVal
deriving DecidableEq, Repr

/-- An outbound command payload: command-field keys to values. -/
abbrev Payload := List (String × PVal)

/-- `turn_off`: unconditionally sends `{ASK_STATUS: CHARGE_MODE_RETURNING}`. -/
def turn_off : List Payload :=
  [[(ASK_STATUS, PVal.prim CHARGE_MODE_RETURNING)]]

/-- `return_to_base`: unconditionally sends
`{ASK_STATUS: CHARGE_MODE_RETURNING}`. -/
def return_to_base : List Payload :=
  [[(ASK_STATUS, PVal.prim CHARGE_MODE_RETURNING)]]

/-- `set_fan_water_speed`: returns early (sending nothing) unless
`is_cleaning` holds, returns early unless the speed is in `FAN_SPEEDS` or
in `MOP_SPEEDS`, and otherwise sends `{SET_FAN_SPEED: speed}`. -/
def set_fan_water_speed (st : Status) (speed : Val) : List Payload :=
  if ¬ is_cleaning st then []
  else if speed ∉ FAN_SPEEDS ∧ speed ∉ MOP_SPEEDS then []
  else [[(SET_FAN_SPEED, PVal.prim speed)]]

/-- The `room_data` accumulation loop of `clean_room`: for each id, append
the one-key dictionary `{"room_id": id}`. -/
def room_data (room_ids_list : List Val) : List (List (String × Val)) :=
  room_ids_list.foldl (fun acc room_id => acc ++ [[("room_id", room_id)]]) []

/-- `clean_room`: builds `room_data` from the id list and unconditionally
sends `{ASK_STATUS: CLEAN_MODE_ROOMS, SELECTED_ZONE: room_data}` — the
source has no guard on the list being nonempty. -/
def clean_room (room_ids_list : List Val) : List Payload :=
  [[(ASK_STATUS, PVal.prim CLEAN_MODE_ROOMS),
    (SELECTED_ZONE, PVal.dicts (room_data room_ids_list))]]

/-- An input box `[x1, y1, x2, y2]` of `clean_zone`, in full-resolution map
units. -/
structure Box where
  x1 : Int
  y1 : Int
  x2 : Int
  y2 : Int
deriving DecidableEq, Repr

/-- The accumulation loop of `clean_zone`: for each box, append
`int(box[0]/10), int(box[0]/10), int(box[2]/10), int(box[2]/10)` to the X
array and `int(box[1]/10), int(box[3]/10), int(box[3]/10), int(box[1]/10)`
to the Y array; `int(k/10)` on an integer `k` truncates toward zero
(`Int.tdiv`). -/
def clean_zone_arrays (bounding : List Box) : List Int × List Int :=
  bounding.foldl
    (fun acc box =>
      (acc.1 ++ [Int.tdiv box.x1 10, Int.tdiv box.x1 10,
                 Int.tdiv box.x2 10, Int.tdiv box.x2 10],
       acc.2 ++ [Int.tdiv box.y1 10, Int.tdiv box.y2 10,
                 Int.tdiv box.y2 10, Int.tdiv box.y1 10]))
    ([], [])

/-- `clean_zone`: unconditionally sends a single payload with the planning
status, `point_num = num_boxes * 4` and the two flattened arrays. -/
def clean_zone (bounding : List Box) : List Payload :=
  [[(ASK_STATUS, PVal.prim ROBOT_PLANNING_RECT),
    (PLANNING_RECT_POINT_NUM, PVal.prim (Val.int (bounding.length * 4))),
    (PLANNING_RECT_X, PVal.intList (clean_zone_arrays bounding).1),
    (PLANNING_RECT_Y, PVal.intList (clean_zone_arrays bounding).2)]]

/-! ### Map model and rendering (`render_map` in `vacdevice.py`)

The drawing and encoding collaborators (`VacMap`, `VacMapDraw` in
`vacmap.py`, and the raster encoder) are not part of the sources under
review; they are modelled from the spec as pure functions of the map. The
orchestration — the empty-map early return, the buffer replacement and the
camera notification — is translated from `vacdevice.py`. -/

/-- Modelled from the spec: a parsed map — decoded grid data, charger and
robot positions in map space, and the temporal path; immutable once
constructed (`VacMap` lives in `vacmap.py`, not in src). -/
structure MapModel where
  grid : List Nat
  charger_position : Int × Int
  robot_position : Int × Int
  path : List (Int × Int)
deriving DecidableEq, Repr

/-- An encoded raster image: an opaque byte buffer. -/
abbrev ImageBytes := List Nat

/-- Modelled from the spec: a position marker overlay only adds pixels
determined by the position (`VacMapDraw` lives in `vacmap.py`, not in
src). -/
def markerPixels (p : Int × Int) : List Nat :=
  [p.1.natAbs, p.2.natAbs]

/-- Modelled from the spec: the path overlay draws connected segments
through the path points in sequence order (`VacMapDraw.draw_path` lives in
`vacmap.py`, not in src). -/
def pathPixels (path : List (Int × Int)) : List Nat :=
  path.flatMap markerPixels

/-- Modelled from the spec: the rendering pipeline — base layer from the
grid, then charger marker, path, robot marker overlays, then encoding to
the chosen raster format whose header embeds no timestamp. A pure function
of the `MapModel`. -/
def renderImage (m : MapModel) : ImageBytes :=
  137 :: 80 :: 78 :: 71 ::
    (m.grid ++ markerPixels m.charger_position ++ pathPixels m.path ++
      markerPixels m.robot_position)

/-- The `VacDevice` state touched by `render_map`: the current status, the
optional loaded map, the published image buffer, whether a map camera is
registered, and a counter of display-refresh notifications
(`schedule_update_ha_state` calls) standing for the event trace. -/
structure VacDevice where
  robot_status : Status
  map : Option MapModel
  map_image_buffer : Option ImageBytes
  map_camera : Bool
  camera_update_count : Nat
deriving DecidableEq, Repr

/-- `trigger_map_camera_update`: notifies the registered camera, if any. -/
def trigger_map_camera_update (d : VacDevice) : VacDevice :=
  if d.map_camera then
    { d with camera_update_count := d.camera_update_count + 1 }
  else d

/-- `render_map`: returns `False` at once when no map is loaded; otherwise
draws the overlays, encodes the image, replaces `map_image_buffer`,
notifies the camera when one is registered, and returns `True`. -/
def render_map (d : VacDevice) : Bool × VacDevice :=
  match d.map with
  | none => (false, d)
  | some m =>
    let d1 := { d with map_image_buffer := some (renderImage m) }
    let d2 := if d1.map_camera then trigger_map_camera_update d1 else d1
    (true, d2)

/-! ### Spec-side forms used by the refinement statements -/

/-- The spec's X quad for one box: `(x1, x1, x2, x2)` scaled by integer
division by 10 (truncating, as `int(k/10)` does on integers). -/
def boxXQuad (b : Box) : List Int :=
  [Int.tdiv b.x1 10, Int.tdiv b.x1 10, Int.tdiv b.x2 10, Int.tdiv b.x2 10]

/-- The spec's Y quad for one box: `(y1, y2, y2, y1)` scaled by integer
division by 10. -/
def boxYQuad (b : Box) : List Int :=
  [Int.tdiv b.y1 10, Int.tdiv b.y2 10, Int.tdiv b.y2 10, Int.tdiv b.y1 10]

/-! ### Helper lemmas -/

/-- The append-accumulation loop of `clean_room` from any starting
accumulator is the accumulator followed by the per-id dictionaries in
input order. -/
theorem room_data_loop (ids : List Val) (acc : List (List (String × Val))) :
    ids.foldl (fun a room_id => a ++ [[("room_id", room_id)]]) acc
      = acc ++ ids.map (fun room_id => [("room_id", room_id)]) := by
  induction ids generalizing acc with
  | nil => simp
  | cons x xs ih => simp [List.foldl_cons, ih]

/-- `room_data` lists the one-key room dictionaries in input order. -/
theorem room_data_eq_map (ids : List Val) :
    room_data ids = ids.map fun room_id => [("room_id", room_id)] := by
  simpa using room_data_loop ids []

/-- The accumulation loop of `clean_zone` from any starting pair of
accumulators appends the per-box quads in input order. -/
theorem clean_zone_arrays_loop (bounding : List Box) (acc : List Int × List Int) :
    bounding.foldl
      (fun acc box =>
        (acc.1 ++ [Int.tdiv box.x1 10, Int.tdiv box.x1 10,
                   Int.tdiv box.x2 10, Int.tdiv box.x2 10],
         acc.2 ++ [Int.tdiv box.y1 10, Int.tdiv box.y2 10,
                   Int.tdiv box.y2 10, Int.tdiv box.y1 10]))
      acc
      = (acc.1 ++ bounding.flatMap boxXQuad, acc.2 ++ bounding.flatMap boxYQuad) := by
  induction bounding generalizing acc with
  | nil => simp
  | cons b bs ih => simp [List.foldl_cons, ih, boxXQuad, boxYQuad]

/-- The X array is the flattened X quads and the Y array the flattened Y
quads, across all boxes in order. -/
theorem clean_zone_arrays_eq (bounding : List Box) :
    clean_zone_arrays bounding
      = (bounding.flatMap boxXQuad, bounding.flatMap boxYQuad) := by
  simpa [clean_zone_arrays] using clean_zone_arrays_loop bounding ([], [])

/-- After a successful render the buffer holds exactly the encoding of the
loaded map, and the loaded map itself is unchanged. -/
theorem render_map_some (d : VacDevice) (m : MapModel) (h : d.map = some m) :
    ((render_map d).2).map_image_buffer = some (renderImage m) ∧
    ((render_map d).2).map = some m ∧
    (render_map d).1 = true := by
  cases hb : d.map_camera <;>
    simp [render_map, h, trigger_map_camera_update, hb]

/-! ### Claim theorems -/

/-- C1: the claim fails on the code. The guard
`if "fan_status" and "water_level" in self.robot_status:` only tests
membership of `"water_level"` (the literal `"fan_status"` is a truthy
constant), so when `fan_status` is absent while `water_level` is present
the accessor subscripts the missing key and raises `KeyError` instead of
returning `NO_FAN_NO_MOP`. All other cases behave as the claim states:
`water_level` absent gives `NO_FAN_NO_MOP`, and with both keys present the
result is `MOP_ON` exactly when the fan is disabled and the water level is
not, else `VACUUM_ON`. -/
theorem vacuum_or_mop_missing_fan_raises :
    vacuum_or_mop [("water_level", Val.str "MID")]
        = Except.error (VacErr.keyError "fan_status") ∧
    vacuum_or_mop [] = Except.ok NO_FAN_NO_MOP ∧
    vacuum_or_mop [("fan_status", FAN_DISABLED)] = Except.ok NO_FAN_NO_MOP ∧
    vacuum_or_mop [("fan_status", FAN_DISABLED), ("water_level", Val.str "MID")]
        = Except.ok MOP_ON ∧
    vacuum_or_mop [("fan_status", FAN_DISABLED), ("water_level", MOP_DISABLED)]
        = Except.ok VACUUM_ON ∧
    vacuum_or_mop [("fan_status", Val.str "HIGH"), ("water_level", Val.str "MID")]
        = Except.ok VACUUM_ON :=
  ⟨rfl, rfl, rfl, rfl, rfl, rfl⟩

/-- C2 counterexample: `clean_room` has no nonempty-list guard, so calling
it with the empty list still sends one payload
`{ASK_STATUS: CLEAN_MODE_ROOMS, SELECTED_ZONE: []}`, refuting "calling
clean_room with an empty list sends no payload". -/
theorem clean_room_empty_still_sends :
    clean_room [] ≠ [] ∧
    clean_room [] = [[(ASK_STATUS, PVal.prim CLEAN_MODE_ROOMS),
                      (SELECTED_ZONE, PVal.dicts [])]] := by
  constructor
  · intro h
    exact absurd h (by simp [clean_room])
  · rfl

/-- C2 amended: `clean_room` sends, unconditionally — for every id list,
the empty one included — exactly one payload
`{ASK_STATUS: CLEAN_MODE_ROOMS, SELECTED_ZONE: [{room_id: id} for each id]}`;
the source checks no precondition and raises nothing. -/
theorem clean_room_unconditional (room_ids_list : List Val) :
    clean_room room_ids_list
      = [[(ASK_STATUS, PVal.prim CLEAN_MODE_ROOMS),
          (SELECTED_ZONE, PVal.dicts
            (room_ids_list.map fun room_id => [("room_id", room_id)]))]] := by
  simp [clean_room, room_data_eq_map]

/-- C3: when `battery_level` is absent the accessor returns `0`; when it is
present as a string that does not parse as an integer (such as `"7a"`),
the accessor fails with the malformed-value error instead of returning a
default. -/
theorem battery_level_default_and_malformed :
    (∀ st : Status, st.get "battery_level" = none →
      battery_level st = Except.ok 0) ∧
    (∀ (st : Status) (s : String), st.get "battery_level" = some (Val.str s) →
      pyIntOfString s = none →
      battery_level st = Except.error (VacErr.valueError s)) := by
  constructor
  · intro st h
    simp [battery_level, h]
  · intro st s h hp
    simp [battery_level, h, pyInt, hp]

/-- C3 witness: the empty status yields `0`, and `battery_level = "7a"`
yields the malformed-value error. -/
theorem battery_level_default_and_malformed_witness :
    battery_level [] = Except.ok 0 ∧
    battery_level [("battery_level", Val.str "7a")]
      = Except.error (VacErr.valueError "7a") :=
  ⟨battery_level_default_and_malformed.1 [] rfl,
   battery_level_default_and_malformed.2 [("battery_level", Val.str "7a")]
     "7a" rfl rfl⟩

/-- C9: `turn_off` and `return_to_base` send identical payloads — exactly
one payload `{ASK_STATUS: CHARGE_MODE_RETURNING}` each, with no
precondition. -/
theorem turn_off_eq_return_to_base :
    turn_off = return_to_base ∧
    turn_off = [[(ASK_STATUS, PVal.prim CHARGE_MODE_RETURNING)]] ∧
    return_to_base = [[(ASK_STATUS, PVal.prim CHARGE_MODE_RETURNING)]] :=
  ⟨rfl, rfl, rfl⟩

/-- C10: when no map is loaded, `render_map` returns `False` and leaves the
device exactly as it was — in particular `map_image_buffer` keeps its
previous value and the camera-notification count is unchanged. -/
theorem render_map_no_map (d : VacDevice) (h : d.map = none) :
    render_map d = (false, d) := by
  simp [render_map, h]

/-- C10 witness: on a device with no map, a stale buffer and a registered
camera, `render_map` returns `False` and the state, stale buffer and
notification count included, is untouched. -/
theorem render_map_no_map_witness :
    render_map ⟨[], none, some [1, 2], true, 5⟩
      = (false, ⟨[], none, some [1, 2], true, 5⟩) :=
  render_map_no_map ⟨[], none, some [1, 2], true, 5⟩ rfl

/-- C4: for every list of boxes, `clean_zone` sends exactly one payload
whose status is the planning-rect status, whose X array is the
concatenation over the boxes, in input order, of `(x1, x1, x2, x2)` each
scaled by integer division by 10, whose Y array is likewise the
concatenation of `(y1, y2, y2, y1)` scaled by 10, and whose `point_num` is
4 times the number of boxes; in particular `clean_zone [[0,0,20,30]]`
yields X = [0,0,2,2], Y = [0,3,3,0], point_num = 4. -/
theorem clean_zone_corner_expansion :
    (∀ bounding : List Box,
      clean_zone bounding
        = [[(ASK_STATUS, PVal.prim ROBOT_PLANNING_RECT),
            (PLANNING_RECT_POINT_NUM, PVal.prim (Val.int (4 * bounding.length))),
            (PLANNING_RECT_X, PVal.intList (bounding.flatMap boxXQuad)),
            (PLANNING_RECT_Y, PVal.intList (bounding.flatMap boxYQuad))]]) ∧
    clean_zone [⟨0, 0, 20, 30⟩]
      = [[(ASK_STATUS, PVal.prim ROBOT_PLANNING_RECT),
          (PLANNING_RECT_POINT_NUM, PVal.prim (Val.int 4)),
          (PLANNING_RECT_X, PVal.intList [0, 0, 2, 2]),
          (PLANNING_RECT_Y, PVal.intList [0, 3, 3, 0])]] := by
  constructor
  · intro bounding
    simp [clean_zone, clean_zone_arrays_eq, mul_comm]
  · rfl

/-- C5: `set_fan_water_speed` sends the payload `{SET_FAN_SPEED: speed}`
exactly when the device is currently cleaning and the speed is in the
allowed fan-speed set or the allowed mop-speed set; in every other case it
sends nothing (and raises nothing) — in particular, while not cleaning,
zero transport calls occur. -/
theorem set_fan_water_speed_gate (st : Status) (speed : Val) :
    (is_cleaning st = true ∧ (speed ∈ FAN_SPEEDS ∨ speed ∈ MOP_SPEEDS) →
      set_fan_water_speed st speed = [[(SET_FAN_SPEED, PVal.prim speed)]]) ∧
    (¬ (is_cleaning st = true ∧ (speed ∈ FAN_SPEEDS ∨ speed ∈ MOP_SPEEDS)) →
      set_fan_water_speed st speed = []) ∧
    (is_cleaning st = false → set_fan_water_speed st speed = []) := by
  refine ⟨?_, ?_, ?_⟩
  · rintro ⟨hc, hs⟩
    have hns : ¬ (speed ∉ FAN_SPEEDS ∧ speed ∉ MOP_SPEEDS) := by tauto
    simp [set_fan_water_speed, hc, hns]
  · intro hn
    by_cases hc : is_cleaning st = true
    · have hs : ¬ (speed ∈ FAN_SPEEDS ∨ speed ∈ MOP_SPEEDS) := by tauto
      have hns : speed ∉ FAN_SPEEDS ∧ speed ∉ MOP_SPEEDS := by tauto
      simp [set_fan_water_speed, hc, hns]
    · simp [set_fan_water_speed, hc]
  · intro hc
    simp [set_fan_water_speed, hc]

/-- C5 witness: while cleaning with an allowed fan speed the single payload
is sent; on the empty status (mode defaults to idle, so not cleaning) the
same request sends nothing. -/
theorem set_fan_water_speed_gate_witness :
    set_fan_water_speed [("working_status", Val.str "AUTO_CLEANING")]
        (Val.str "FAN_HIGH")
      = [[(SET_FAN_SPEED, PVal.prim (Val.str "FAN_HIGH"))]] ∧
    set_fan_water_speed [] (Val.str "FAN_HIGH") = [] :=
  ⟨(set_fan_water_speed_gate [("working_status", Val.str "AUTO_CLEANING")]
      (Val.str "FAN_HIGH")).1 ⟨by decide, by decide⟩,
   (set_fan_water_speed_gate [] (Val.str "FAN_HIGH")).2.2 (by decide)⟩

/-- C6: `is_available` is true exactly when the `connected` key is present
with the literal string value `"true"`; an absent key, any other string
(such as `"True"`) and a boolean `true` all yield false. -/
theorem is_available_literal_true :
    (∀ st : Status,
      is_available st = true ↔ st.get "connected" = some (Val.str "true")) ∧
    is_available [("connected", Val.bool true)] = false ∧
    is_available [("connected", Val.str "True")] = false ∧
    is_available [] = false := by
  refine ⟨?_, rfl, rfl, rfl⟩
  intro st
  cases h : st.get "connected" with
  | none => simp [is_available, h]
  | some c => simp [is_available, h]

/-- C7: `current_mode` returns the raw `working_status` value when present
and `IDLE_MODE` when absent, and `is_charging` is true exactly when that
mode belongs to `CHARGING_STATES` — for every mode value, an unknown
string yielding false. -/
theorem current_mode_and_charging :
    (∀ (st : Status) (v : Val),
      st.get "working_status" = some v → current_mode st = v) ∧
    (∀ st : Status,
      st.get "working_status" = none → current_mode st = IDLE_MODE) ∧
    (∀ st : Status, is_charging st = true ↔ current_mode st ∈ CHARGING_STATES) ∧
    is_charging [("working_status", Val.str "SOME_UNKNOWN_MODE")] = false := by
  refine ⟨?_, ?_, ?_, rfl⟩
  · intro st v h
    simp [current_mode, h]
  · intro st h
    simp [current_mode, h]
  · intro st
    simp [is_charging]

/-- C7 witness: a present `working_status` is passed through raw, the empty
status defaults to `IDLE_MODE`, and a charging mode is classified as
charging. -/
theorem current_mode_and_charging_witness :
    current_mode [("working_status", Val.str "CHARGING")] = Val.str "CHARGING" ∧
    current_mode [] = IDLE_MODE ∧
    is_charging [("working_status", Val.str "CHARGING")] = true :=
  ⟨current_mode_and_charging.1 [("working_status", Val.str "CHARGING")]
      (Val.str "CHARGING") rfl,
   current_mode_and_charging.2.1 [] rfl,
   (current_mode_and_charging.2.2.1
      [("working_status", Val.str "CHARGING")]).mpr (by decide)⟩

/-- C8: rendering is deterministic in the loaded map and leaves the map
unchanged, so re-rendering produces a byte-identical encoded image: any
two devices holding the same `MapModel` end with equal buffers, rendering
twice equals rendering once, and the buffer is exactly the encoding of the
map. -/
theorem render_map_idempotent (d d' : VacDevice) (m : MapModel)
    (h : d.map = some m) (h' : d'.map = some m) :
    ((render_map d).2).map_image_buffer = ((render_map d').2).map_image_buffer ∧
    ((render_map (render_map d).2).2).map_image_buffer
      = ((render_map d).2).map_image_buffer ∧
    ((render_map d).2).map_image_buffer = some (renderImage m) := by
  obtain ⟨hb, hm, -⟩ := render_map_some d m h
  obtain ⟨hb', -, -⟩ := render_map_some d' m h'
  obtain ⟨hb2, -, -⟩ := render_map_some (render_map d).2 m hm
  exact ⟨hb.trans hb'.symm, hb2.trans hb.symm, hb⟩

/-- C8 witness: two different devices (one with a registered camera and a
stale buffer) holding the same map render to the same bytes, and rendering
twice changes nothing about the published image. -/
theorem render_map_idempotent_witness :
    ((render_map ⟨[], some ⟨[5], (1, 2), (3, 4), [(0, 0)]⟩, none, false, 0⟩).2).map_image_buffer
      = ((render_map ⟨[], some ⟨[5], (1, 2), (3, 4), [(0, 0)]⟩, some [9], true, 7⟩).2).map_image_buffer ∧
    ((render_map (render_map ⟨[], some ⟨[5], (1, 2), (3, 4), [(0, 0)]⟩, none, false, 0⟩).2).2).map_image_buffer
      = ((render_map ⟨[], some ⟨[5], (1, 2), (3, 4), [(0, 0)]⟩, none, false, 0⟩).2).map_image_buffer ∧
    ((render_map ⟨[], some ⟨[5], (1, 2), (3, 4), [(0, 0)]⟩, none, false, 0⟩).2).map_image_buffer
      = some (renderImage ⟨[5], (1, 2), (3, 4), [(0, 0)]⟩) :=
  render_map_idempotent
    ⟨[], some ⟨[5], (1, 2), (3, 4), [(0, 0)]⟩, none, false, 0⟩
    ⟨[], some ⟨[5], (1, 2), (3, 4), [(0, 0)]⟩, some [9], true, 7⟩
    ⟨[5], (1, 2), (3, 4), [(0, 0)]⟩ rfl rfl

end Weback
